import Mathlib

/-
Shallow embedding of the simulation core of mosmeh/wave (src/main.cpp).

Numeric model: the C++ code computes with float/double; here every quantity
is an exact rational (ℚ).  Decimal literals of the source (0.9f, 0.03f, ...)
are taken at their exact decimal value.  The one irrational constant,
glm::pi<double>(), is taken at the exact value of the IEEE-754 double nearest
to pi, which is the rational 884279719003555/2^48 — that is what the program
actually compares against in Spray::update.  std::cos has no exact rational
counterpart; the model is parameterized by an arbitrary pure function
c : ℚ → ℚ standing for the cosine routine (it only feeds the Spray's vertical
coordinate, which no visibility or scheduling decision reads).

The renderer, window system and input polling are outside the core; the
per-frame inputs they deliver (clock value, key states, and the two random
draws the scheduler consumes) are modeled as a FrameInput record.
-/

namespace Wave

/-! ## Constants (top of main.cpp) -/

def SPRAY_WIDTH : ℚ := 2/5
def PELICAN_WIDTH : ℚ := 1/5
def WAVE_SPEED : ℚ := 2/5
def BOAT_POS_X : ℚ := 1/10
def BOAT_WIDTH : ℚ := 1/5
def SEA_LEVEL : ℚ := 4/5
def GRAVITY : ℚ := 9/10000

/-- glm::pi<double>() : the IEEE-754 double closest to pi, exactly. -/
def PI_D : ℚ := 884279719003555/281474976710656

/-- C++ `static_cast<int>` on a real value: truncation toward zero. -/
def truncQ (q : ℚ) : ℤ := Int.tdiv q.num (q.den : ℤ)

/-! ## Hazards (class Object and its two subclasses Spray, Pelican) -/

inductive Kind
  | spray
  | pelican
deriving DecidableEq

/-- The mutable derived fields of an Object: Spray carries pos_ and visible_;
Pelican additionally carries animIndex_. -/
inductive HazardState
  | spray (pos : ℚ × ℚ) (visible : Bool)
  | pelican (pos : ℚ × ℚ) (visible : Bool) (animIndex : ℤ)
deriving DecidableEq

structure Hazard where
  spawnTime : ℚ
  state : HazardState
deriving DecidableEq

def kindOf : HazardState → Kind
  | .spray _ _ => .spray
  | .pelican _ _ _ => .pelican

/-- The base-class field pos_. -/
def hazPos : HazardState → ℚ × ℚ
  | .spray p _ => p
  | .pelican p _ _ => p

/-- The base-class field visible_ (Object::isVisible). -/
def hazVisible : HazardState → Bool
  | .spray _ v => v
  | .pelican _ v _ => v

def isVisible (h : Hazard) : Bool := hazVisible h.state

/-- Constructor state: visible_ = true; Pelican sets animIndex_ = 0.  pos_ is
a default-constructed glm::vec2, written before first read (update runs in
the spawn frame, before any draw or hit); we take (0, 0). -/
def initHazardState : Kind → HazardState
  | .spray => .spray (0, 0) true
  | .pelican => .pelican (0, 0) true 0

def newHazard (k : Kind) (t : ℚ) : Hazard := ⟨t, initHazardState k⟩

/-- Spray::update / Pelican::update at clock value t, with c the cosine
routine.  Spray: pos = (0.9 - WAVE_SPEED*(t-s), 0.75 + 0.25*cos(2*(t-s))),
visible = t ≤ s + pi.  Pelican: pos = (1 - 0.8*(t-s), 0.05),
visible = pos.x ≥ -PELICAN_WIDTH, animIndex = int((t-s)/0.25) % 2. -/
def updateHazard (c : ℚ → ℚ) (t : ℚ) (h : Hazard) : Hazard :=
  { spawnTime := h.spawnTime,
    state :=
      match h.state with
      | .spray _ _ =>
          .spray (9/10 - WAVE_SPEED * (t - h.spawnTime),
                  3/4 + 1/4 * c (2 * (t - h.spawnTime)))
            (decide (t ≤ h.spawnTime + PI_D))
      | .pelican _ _ _ =>
          .pelican (1 - 4/5 * (t - h.spawnTime), 1/20)
            (decide (1 - 4/5 * (t - h.spawnTime) ≥ -PELICAN_WIDTH))
            (Int.tmod (truncQ ((t - h.spawnTime) / (1/4))) 2) }

/-- Unfolding lemma: update of a spray. -/
theorem updateHazard_spray (c : ℚ → ℚ) (t s : ℚ) (p : ℚ × ℚ) (v : Bool) :
    updateHazard c t ⟨s, .spray p v⟩ =
      ⟨s, .spray (9/10 - WAVE_SPEED * (t - s), 3/4 + 1/4 * c (2 * (t - s)))
        (decide (t ≤ s + PI_D))⟩ := rfl

/-- Unfolding lemma: update of a pelican. -/
theorem updateHazard_pelican (c : ℚ → ℚ) (t s : ℚ) (p : ℚ × ℚ) (v : Bool) (a : ℤ) :
    updateHazard c t ⟨s, .pelican p v a⟩ =
      ⟨s, .pelican (1 - 4/5 * (t - s), 1/20)
        (decide (1 - 4/5 * (t - s) ≥ -PELICAN_WIDTH))
        (Int.tmod (truncQ ((t - s) / (1/4))) 2)⟩ := rfl

/-- Spray::hit / Pelican::hit against the boat's vertical position (the C++
short-circuit conjunctions are logical conjunction). -/
def hitTest (h : Hazard) (boatPosY : ℚ) : Bool :=
  match h.state with
  | .spray p _ =>
      decide (BOAT_POS_X + BOAT_WIDTH > p.1 + 1/2 * SPRAY_WIDTH ∧
              BOAT_POS_X < p.1 + SPRAY_WIDTH ∧
              boatPosY > p.2)
  | .pelican p _ _ =>
      decide (BOAT_POS_X + BOAT_WIDTH > p.1 ∧
              BOAT_POS_X < p.1 + PELICAN_WIDTH ∧
              boatPosY - 1/5 < p.2 + 1/5)

/-- The collision loop over the registry (break on first hit = Boolean any). -/
def collide (objs : List Hazard) (boatPosY : ℚ) : Bool :=
  objs.any (fun o => hitTest o boatPosY)

/-- The cull loop: while the front element is invisible, pop it. -/
def cullFront : List Hazard → List Hazard
  | [] => []
  | h :: rest => if isVisible h then h :: rest else cullFront rest

/-- The spawn condition `objects.empty() || time > objects.back()->getSpawnTime()
+ interval` (back() is only read when the deque is nonempty). -/
def spawnCond (objs : List Hazard) (interval now : ℚ) : Bool :=
  match objs.getLast? with
  | none => true
  | some last => decide (now > last.spawnTime + interval)

def updateAll (c : ℚ → ℚ) (t : ℚ) (objs : List Hazard) : List Hazard :=
  objs.map (updateHazard c t)

/-! ## Vessel physics (the boat block of the main loop) -/

structure Vessel where
  posY : ℚ
  velY : ℚ
  grounded : Bool
deriving DecidableEq

/-- One frame of boat physics (main.cpp lines 414-426): on the ground a jump
press subtracts 0.03 from the velocity and lifts off; airborne with
posY > SEA_LEVEL snaps back to the ground; otherwise integrate. -/
def vesselStep (jump : Bool) (v : Vessel) : Vessel :=
  if v.grounded then
    if jump then { v with velY := v.velY - 3/100, grounded := false } else v
  else if v.posY > SEA_LEVEL then
    ⟨SEA_LEVEL, 0, true⟩
  else
    ⟨v.posY + v.velY, v.velY + GRAVITY, false⟩

/-- The trajectory after a single jump request on frame 0 and no further
requests, starting grounded at the baseline. -/
def jumpTraj : ℕ → Vessel
  | 0 => ⟨SEA_LEVEL, 0, true⟩
  | n + 1 => vesselStep (n == 0) (jumpTraj n)

theorem jumpTraj_succ (n : ℕ) : jumpTraj (n + 1) = vesselStep (n == 0) (jumpTraj n) := rfl

theorem vesselStep_false_of_grounded (p : ℚ) :
    vesselStep false ⟨p, 0, true⟩ = ⟨p, 0, true⟩ := rfl

/-! ## The per-frame session step (body of the main loop) -/

/-- Frame inputs delivered by the excluded collaborators: the two key states,
the clock value, and the two random draws the scheduler would consume if it
spawns this frame (bernoulli kind draw, uniform interval draw). -/
structure FrameInput where
  retry : Bool
  jump : Bool
  now : ℚ
  kindDraw : Kind
  intervalDraw : ℚ
deriving DecidableEq

structure GameState where
  boatPosY : ℚ
  boatVelY : ℚ
  grounded : Bool
  objects : List Hazard
  interval : ℚ
  gameover : Bool
  time : ℚ
deriving DecidableEq

/-- Program start: boat grounded at SEA_LEVEL, empty deque, gameover false;
`interval` and `time` are both initialized from glfwGetTime(), here t0. -/
def initState (t0 : ℚ) : GameState :=
  { boatPosY := SEA_LEVEL, boatVelY := 0, grounded := true,
    objects := [], interval := t0, gameover := false, time := t0 }

/-- The retry branch (gameover && R pressed): clear the deque, reset the boat,
clear the flag.  `interval` and `time` are left as they were. -/
def retryReset (st : GameState) : GameState :=
  { st with gameover := false, objects := [],
            boatPosY := SEA_LEVEL, boatVelY := 0, grounded := true }

/-- A running (non-gameover) frame, in source order: read the clock, boat
physics, collision loop (sets gameover), cull loop, spawn check, update loop.
Note the cull/spawn/update block is not guarded by the collision outcome. -/
def stepRunning (c : ℚ → ℚ) (st : GameState) (inp : FrameInput) : GameState :=
  let v := vesselStep inp.jump ⟨st.boatPosY, st.boatVelY, st.grounded⟩
  let hitNow := collide st.objects v.posY
  let culled := cullFront st.objects
  let spawned :=
    if spawnCond culled st.interval inp.now then
      culled ++ [newHazard inp.kindDraw inp.now]
    else culled
  { boatPosY := v.posY, boatVelY := v.velY, grounded := v.grounded,
    objects := updateAll c inp.now spawned,
    interval := if spawnCond culled st.interval inp.now then inp.intervalDraw
                else st.interval,
    gameover := hitNow,
    time := inp.now }

/-- One iteration of the main loop.  While gameover, only the retry key is
read (the clock is not re-read and no simulation runs). -/
def step (c : ℚ → ℚ) (st : GameState) (inp : FrameInput) : GameState :=
  if st.gameover then
    if inp.retry then retryReset st else st
  else
    stepRunning c st inp

/-! ## Derived notions used by the statements -/

/-- Vessel invariant from the data model: grounded implies zero velocity and
position exactly at the baseline. -/
def VesselInvariant (st : GameState) : Prop :=
  st.grounded = true → st.boatVelY = 0 ∧ st.boatPosY = SEA_LEVEL

/-- Two horizontal extents [a, a+wa] and [b, b+wb] strictly overlap. -/
def overlaps (a wa b wb : ℚ) : Prop :=
  a < b + wb ∧ b < a + wa

/-- A concrete stand-in for the cosine routine, used where a closed statement
must evaluate the model (no statement proved below depends on its values). -/
def cosZero : ℚ → ℚ := fun _ => 0

end Wave

/- The library seals the rational operations against unfolding, which blocks
evaluation of concrete model states inside decision procedures; restore
ordinary unfolding for them in this file. -/
unseal Rat.add Rat.mul Rat.sub Rat.inv Rat.ofScientific

set_option maxRecDepth 100000

namespace Wave

/-- Claim C9: a retry request while the session is Running is ignored: the
frame result is identical for either value of the retry signal (the main loop
reads the R key but only consults it inside the gameover branch). -/
theorem c9_retry_ignored_while_running :
    ∀ (c : ℚ → ℚ) (st : GameState) (j : Bool) (n : ℚ) (k : Kind) (i : ℚ) (r1 r2 : Bool),
    st.gameover = false →
    step c st ⟨r1, j, n, k, i⟩ = step c st ⟨r2, j, n, k, i⟩ := by
  intro c st j n k i r1 r2 h
  simp [step, stepRunning, h]

/-- Witness for C9 at a concrete running state. -/
theorem c9_retry_ignored_while_running_witness :
    step cosZero (initState 0) ⟨true, true, 1, Kind.spray, 2⟩ =
      step cosZero (initState 0) ⟨false, true, 1, Kind.spray, 2⟩ :=
  c9_retry_ignored_while_running cosZero (initState 0) true 1 Kind.spray 2 true false rfl

/-- Claim C8: a hazard's derived state after update(t) — position, visibility,
and the Pelican's animation index — is a pure function of (spawnTime, t,
variant): updates of two hazards of the same variant and spawn time agree,
whatever their prior derived state. -/
theorem c8_update_deterministic :
    ∀ (c : ℚ → ℚ) (t : ℚ) (h1 h2 : Hazard),
    h1.spawnTime = h2.spawnTime → kindOf h1.state = kindOf h2.state →
    h1.spawnTime ≤ t →
    updateHazard c t h1 = updateHazard c t h2 := by
  intro c t h1 h2 hs hk _
  obtain ⟨s1, st1⟩ := h1
  obtain ⟨s2, st2⟩ := h2
  cases st1 <;> cases st2 <;> simp_all [kindOf, updateHazard]

/-- Witness for C8: two pelicans with equal spawn times but different stale
derived state update to the same state. -/
theorem c8_update_deterministic_witness :
    updateHazard cosZero 1 ⟨0, .pelican (5, 7) false 1⟩ =
      updateHazard cosZero 1 ⟨0, .pelican (0, 0) true 0⟩ :=
  c8_update_deterministic cosZero 1 ⟨0, .pelican (5, 7) false 1⟩ ⟨0, .pelican (0, 0) true 0⟩
    rfl rfl (by norm_num)

/-- Claim C10: culling removes hazards only while the front element is
invisible (a visible front stops it, so invisible hazards behind it stay in
the deque), and the collision loop tests every element of the registry as it
stood at the start of the frame, visible or not. -/
theorem c10_cull_and_collision_scope :
    (∀ (a : Hazard) (l : List Hazard), isVisible a = true → cullFront (a :: l) = a :: l) ∧
    (∀ (objs : List Hazard) (y : ℚ) (h : Hazard),
        h ∈ objs → isVisible h = false → hitTest h y = true → collide objs y = true) ∧
    (∀ (c : ℚ → ℚ) (st : GameState) (inp : FrameInput), st.gameover = false →
        (step c st inp).gameover =
          collide st.objects
            (vesselStep inp.jump ⟨st.boatPosY, st.boatVelY, st.grounded⟩).posY) := by
  refine ⟨?_, ?_, ?_⟩
  · intro a l h
    simp [cullFront, h]
  · intro objs y h hm _ hh
    simp only [collide, List.any_eq_true, decide_eq_true_eq]
    exact ⟨h, hm, hh⟩
  · intro c st inp h
    simp [step, stepRunning, h]

/-- Witness for C10: a visible spray in front shields an invisible pelican
from culling, and that invisible pelican still triggers the collision test. -/
theorem c10_cull_and_collision_scope_witness :
    cullFront [⟨0, .spray (9/10, 3/4) true⟩, ⟨1/10, .pelican (1/20, 1/20) false 0⟩] =
      [⟨0, .spray (9/10, 3/4) true⟩, ⟨1/10, .pelican (1/20, 1/20) false 0⟩] ∧
    collide [⟨0, .spray (9/10, 3/4) true⟩, ⟨1/10, .pelican (1/20, 1/20) false 0⟩] (1/5)
      = true :=
  ⟨c10_cull_and_collision_scope.1 ⟨0, .spray (9/10, 3/4) true⟩
      [⟨1/10, .pelican (1/20, 1/20) false 0⟩] (by decide),
   c10_cull_and_collision_scope.2.1
      [⟨0, .spray (9/10, 3/4) true⟩, ⟨1/10, .pelican (1/20, 1/20) false 0⟩] (1/5)
      ⟨1/10, .pelican (1/20, 1/20) false 0⟩ (by decide) (by decide) (by decide)⟩

/-- Counterexample to claim C7: the Pelican's vertical test is not a band
bounded on both sides around its vertical position — no pair of offsets
(lo, hi) makes the hit predicate equal to "horizontal overlap and vessel
within [y - lo, y + hi]": the test accepts vessels arbitrarily far above. -/
theorem c7_two_sided_band_refuted :
    ¬ ∃ lo hi : ℚ, ∀ (s : ℚ) (p : ℚ × ℚ) (v : Bool) (a : ℤ) (y : ℚ),
        hitTest ⟨s, .pelican p v a⟩ y = true ↔
          (overlaps BOAT_POS_X BOAT_WIDTH p.1 PELICAN_WIDTH ∧
           p.2 - lo ≤ y ∧ y ≤ p.2 + hi) := by
  rintro ⟨lo, hi, H⟩
  have hmin1 : min (-lo) 0 ≤ -lo := min_le_left _ _
  have hmin2 : min (-lo) 0 ≤ 0 := min_le_right _ _
  have h := (H 0 (1/10, 1/20) true 0 (min (-lo) 0 + 1/20 - 1)).mp ?_
  · have h1 : (1/20 : ℚ) - lo ≤ min (-lo) 0 + 1/20 - 1 := h.2.1
    linarith
  · show decide ((1:ℚ)/10 + 1/5 > 1/10 ∧ (1:ℚ)/10 < 1/10 + 1/5 ∧
        min (-lo) 0 + 1/20 - 1 - 1/5 < 1/20 + 1/5) = true
    rw [decide_eq_true_iff]
    refine ⟨by norm_num, by norm_num, by linarith⟩

/-- Claim C7 as amended: Pelican::hit is true exactly when the vessel's and
the pelican's horizontal extents strictly overlap AND the vessel's vertical
position is less than the pelican's vertical position plus 0.4 — a one-sided
vertical tolerance (unbounded above), not a two-sided band. -/
theorem c7_pelican_hit_one_sided :
    ∀ (s : ℚ) (p : ℚ × ℚ) (v : Bool) (a : ℤ) (y : ℚ),
    hitTest ⟨s, .pelican p v a⟩ y = true ↔
      (overlaps BOAT_POS_X BOAT_WIDTH p.1 PELICAN_WIDTH ∧ y - 1/5 < p.2 + 1/5) := by
  intro s p v a y
  show decide (BOAT_POS_X + BOAT_WIDTH > p.1 ∧
      BOAT_POS_X < p.1 + PELICAN_WIDTH ∧ y - 1/5 < p.2 + 1/5) = true ↔ _
  rw [decide_eq_true_iff]
  unfold overlaps
  constructor
  · rintro ⟨h1, h2, h3⟩
    exact ⟨⟨h2, h1⟩, h3⟩
  · rintro ⟨⟨h2, h1⟩, h3⟩
    exact ⟨h1, h2, h3⟩

/-- A reachable three-frame run: frame at t=0 spawns a Spray into an empty
registry with interval draw 1; frame at t=1.01 spawns a Pelican behind it;
frame at t=2.6 updates both.  Initial state as at program start with the
clock at 0. -/
def crossRun : GameState :=
  step cosZero
    (step cosZero
      (step cosZero (initState 0) ⟨false, false, 0, Kind.spray, 1⟩)
      ⟨false, false, 101/100, Kind.pelican, 3⟩)
    ⟨false, false, 13/5, Kind.spray, 1⟩

/-- Counterexample to claim C1: invisibility is not monotone in spawn order
across variants.  In the reachable registry above, the front Spray (spawn
time 0, lifespan pi) is still visible at t = 2.6 while the Pelican behind it
(spawn time 1.01, lifespan 1.5) has already become invisible — the
earlier-spawned hazard loses visibility strictly later. -/
theorem c1_cross_variant_refuted :
    crossRun.objects.map (fun h => (h.spawnTime, isVisible h)) =
      [(0, true), (101/100, false)] := by
  decide

/-- Claim C1 as amended: monotonicity of invisibility in spawn order holds
between hazards of the same variant — if A and B have the same kind and A
spawned no later than B, then whenever B's update at t reports invisible, so
does A's.  (Across different variants it fails, see the counterexample.) -/
theorem c1_same_variant_monotone :
    ∀ (c : ℚ → ℚ) (t s1 s2 : ℚ) (st1 st2 : HazardState),
    kindOf st1 = kindOf st2 → s1 ≤ s2 →
    isVisible (updateHazard c t ⟨s2, st2⟩) = false →
    isVisible (updateHazard c t ⟨s1, st1⟩) = false := by
  intro c t s1 s2 st1 st2 hk hle hinv
  cases st1 <;> cases st2 <;>
    simp_all only [kindOf, updateHazard, isVisible, hazVisible,
      decide_eq_false_iff_not, not_le, not_lt, ge_iff_le, reduceCtorEq] <;>
    linarith

/-- Witness for C1's amended theorem: two sprays, spawn times 0 ≤ 1/2, both
invisible at t = 4. -/
theorem c1_same_variant_monotone_witness :
    isVisible (updateHazard cosZero 4 ⟨0, .spray (0, 0) true⟩) = false :=
  c1_same_variant_monotone cosZero 4 0 (1/2) (.spray (0, 0) true) (.spray (0, 0) true)
    rfl (by norm_num) (by decide)

/-- A running frame whose collision loop fires: the boat is mid-jump at
y = 0.4 and the registry holds a Pelican whose stored position overlaps it. -/
def hitFrameState : GameState :=
  ⟨2/5, 0, false, [⟨0, .pelican (1/20, 1/20) true 0⟩], 10, false, 0⟩

/-- Counterexample to claim C2: in the very frame the collision is detected,
the registry lifecycle still runs — the step sets gameover, yet the stored
hazard state is advanced by the update loop rather than frozen (the C++ cull,
spawn and update blocks are not guarded by the collision outcome). -/
theorem c2_hit_frame_lifecycle_runs :
    (step cosZero hitFrameState ⟨false, false, 1, Kind.spray, 2⟩).gameover = true ∧
    (step cosZero hitFrameState ⟨false, false, 1, Kind.spray, 2⟩).objects ≠
      hitFrameState.objects := by
  decide

/-- Claim C2 as amended: on a Running frame a detected hit transitions the
session to GameOver, but the registry lifecycle (cull, spawn, update) still
runs once in that same frame — its outcome is independent of the vessel
state, hence of whether a hit occurred; from the next frame on, while
gameover holds and retry is not pressed, the whole state is frozen. -/
theorem c2_gameover_transition_and_freeze :
    (∀ (c : ℚ → ℚ) (st : GameState) (inp : FrameInput) (y v : ℚ) (g : Bool),
        st.gameover = false →
        (step c st inp).objects =
          (step c { st with boatPosY := y, boatVelY := v, grounded := g } inp).objects ∧
        (step c st inp).interval =
          (step c { st with boatPosY := y, boatVelY := v, grounded := g } inp).interval) ∧
    (∀ (c : ℚ → ℚ) (st : GameState) (inp : FrameInput), st.gameover = false →
        ((step c st inp).gameover = true ↔
          collide st.objects
            (vesselStep inp.jump ⟨st.boatPosY, st.boatVelY, st.grounded⟩).posY = true)) ∧
    (∀ (c : ℚ → ℚ) (st : GameState) (inp : FrameInput),
        st.gameover = true → inp.retry = false → step c st inp = st) := by
  refine ⟨?_, ?_, ?_⟩
  · intro c st inp y v g h
    constructor <;> simp [step, stepRunning, h]
  · intro c st inp h
    simp [step, stepRunning, h]
  · intro c st inp h hr
    simp [step, h, hr]

/-- Witness for C2's amended theorem: the hit frame above computes the same
registry as the same frame started from a harmless vessel position, and a
frozen gameover state is left untouched. -/
theorem c2_gameover_transition_and_freeze_witness :
    (step cosZero hitFrameState ⟨false, false, 1, Kind.spray, 2⟩).objects =
      (step cosZero { hitFrameState with boatPosY := 4/5, boatVelY := 0, grounded := true }
        ⟨false, false, 1, Kind.spray, 2⟩).objects ∧
    step cosZero { hitFrameState with gameover := true } ⟨false, false, 1, Kind.spray, 2⟩ =
      { hitFrameState with gameover := true } :=
  ⟨(c2_gameover_transition_and_freeze.1 cosZero hitFrameState
      ⟨false, false, 1, Kind.spray, 2⟩ (4/5) 0 true rfl).1,
   c2_gameover_transition_and_freeze.2.2 cosZero { hitFrameState with gameover := true }
      ⟨false, false, 1, Kind.spray, 2⟩ rfl rfl⟩

/-- Counterexample to claim C6: with exact arithmetic, at t = 1.5 the Pelican
spawned at 0 sits at horizontal position exactly -0.2 = -(its width), and the
visibility rule `pos.x >= -PELICAN_WIDTH` therefore still reports VISIBLE,
while the claim asserts visibility is false there. -/
theorem c6_boundary_still_visible :
    hazVisible (updateHazard cosZero (3/2) ⟨0, .pelican (0, 0) true 0⟩).state = true := by
  decide

/-- Claim C6 as amended: a Pelican spawned at t = 0 has horizontal position
1 - 0.8·t and fixed vertical position 0.05; at t = 1.25 it sits at
horizontal position 0 and is visible; at t = 1.5 it sits at exactly -0.2 and
— with exact arithmetic — is still visible (the ≥ boundary); for every
t > 1.5 its visibility is false. -/
theorem c6_pelican_kinematics :
    ∀ (c : ℚ → ℚ) (p : ℚ × ℚ) (v : Bool) (a : ℤ),
    (∀ t, hazPos (updateHazard c t ⟨0, .pelican p v a⟩).state = (1 - 4/5 * t, 1/20)) ∧
    hazPos (updateHazard c (5/4) ⟨0, .pelican p v a⟩).state = (0, 1/20) ∧
    hazVisible (updateHazard c (5/4) ⟨0, .pelican p v a⟩).state = true ∧
    hazPos (updateHazard c (3/2) ⟨0, .pelican p v a⟩).state = (-(1/5), 1/20) ∧
    hazVisible (updateHazard c (3/2) ⟨0, .pelican p v a⟩).state = true ∧
    (∀ t, 3/2 < t → hazVisible (updateHazard c t ⟨0, .pelican p v a⟩).state = false) := by
  intro c p v a
  refine ⟨?_, ?_, ?_, ?_, ?_, ?_⟩
  · intro t
    rw [updateHazard_pelican]
    simp [hazPos]
  · rw [updateHazard_pelican]
    simp only [hazPos]
    norm_num
  · rw [updateHazard_pelican]
    simp only [hazVisible]
    rw [decide_eq_true_iff]
    unfold PELICAN_WIDTH
    norm_num
  · rw [updateHazard_pelican]
    simp only [hazPos]
    norm_num
  · rw [updateHazard_pelican]
    simp only [hazVisible]
    rw [decide_eq_true_iff]
    unfold PELICAN_WIDTH
    norm_num
  · intro t ht
    rw [updateHazard_pelican]
    simp only [hazVisible]
    rw [decide_eq_false_iff_not]
    unfold PELICAN_WIDTH
    intro hc
    linarith

/-- Witness for C6's amended theorem at t = 2 > 1.5: invisible. -/
theorem c6_pelican_kinematics_witness :
    hazVisible (updateHazard cosZero 2 ⟨0, .pelican (0, 0) true 0⟩).state = false :=
  (c6_pelican_kinematics cosZero (0, 0) true 0).2.2.2.2.2 2 (by norm_num)

/-- Counterexample to claim C3: after the jump at frame 0, frame 69 observes
position 0.8102, strictly beyond the baseline 0.8, while still airborne; only
frame 70 snaps back and regrounds.  So a frame does observe position strictly
beyond the baseline, and grounding happens one frame after the overshoot, not
on it. -/
theorem c3_overshoot_refuted :
    SEA_LEVEL < (jumpTraj 69).posY ∧ (jumpTraj 69).grounded = false ∧
    (jumpTraj 70).grounded = true := by
  decide

/-- Claim C3 as amended: from one jump at frame 0 (which only applies the
impulse; position is unchanged that frame), the position strictly decreases
over frames 1..35, strictly increases over frames 35..69, stays at or above
(screen-wise: never beyond) the baseline through frame 68, overshoots the
baseline exactly at frame 69 while still airborne, and frame 70 snaps to
exactly the baseline with zero velocity and grounded true, where it stays
forever after. -/
theorem c3_jump_arc :
    (∀ n : Fin 34, (jumpTraj (n.val + 2)).posY < (jumpTraj (n.val + 1)).posY) ∧
    (∀ n : Fin 34, (jumpTraj (n.val + 35)).posY < (jumpTraj (n.val + 36)).posY) ∧
    (∀ n : Fin 69, (jumpTraj n.val).posY ≤ SEA_LEVEL) ∧
    SEA_LEVEL < (jumpTraj 69).posY ∧
    (∀ n : Fin 69, (jumpTraj (n.val + 1)).grounded = false) ∧
    jumpTraj 70 = ⟨SEA_LEVEL, 0, true⟩ ∧
    (∀ n : ℕ, jumpTraj (n + 70) = ⟨SEA_LEVEL, 0, true⟩) := by
  refine ⟨by decide, by decide, by decide, by decide, by decide, by decide, ?_⟩
  intro n
  induction n with
  | zero => decide
  | succ k ih =>
      have hb : ((k + 70) == 0) = false := by
        simp
      rw [Nat.succ_add, jumpTraj_succ, ih, hb]
      exact vesselStep_false_of_grounded SEA_LEVEL

/-- helper: one frame of boat physics preserves the grounded invariant. -/
theorem vesselStep_grounded_inv (j : Bool) (v : Vessel)
    (h : v.grounded = true → v.velY = 0 ∧ v.posY = SEA_LEVEL) :
    (vesselStep j v).grounded = true →
      (vesselStep j v).velY = 0 ∧ (vesselStep j v).posY = SEA_LEVEL := by
  unfold vesselStep
  split
  · split
    · intro hres
      simp at hres
    · exact h
  · split
    · intro _
      exact ⟨rfl, rfl⟩
    · intro hres
      simp at hres

/-- Claim C4: the vessel invariant — grounded implies zero vertical velocity
and vertical position exactly at the baseline — holds at program start and is
preserved by every per-frame step (jump lift-off, snap-to-baseline, airborne
integration, gameover freeze, and the retry reset). -/
theorem c4_grounded_invariant :
    (∀ t0 : ℚ, VesselInvariant (initState t0)) ∧
    (∀ (c : ℚ → ℚ) (st : GameState) (inp : FrameInput),
        VesselInvariant st → VesselInvariant (step c st inp)) := by
  constructor
  · intro t0 _
    exact ⟨rfl, rfl⟩
  · intro c st inp h
    unfold VesselInvariant step at *
    split
    · split
      · intro _
        exact ⟨rfl, rfl⟩
      · exact h
    · exact vesselStep_grounded_inv inp.jump ⟨st.boatPosY, st.boatVelY, st.grounded⟩ h

/-- Witness for C4 at a concrete frame: the invariant holds after a jump
frame from the initial state. -/
theorem c4_grounded_invariant_witness :
    VesselInvariant (step cosZero (initState 0) ⟨false, true, 1, Kind.spray, 2⟩) :=
  c4_grounded_invariant.2 cosZero (initState 0) ⟨false, true, 1, Kind.spray, 2⟩
    (fun _ => ⟨rfl, rfl⟩)

/-- Claim C5: in every Running frame a hazard is spawned iff the (post-cull)
registry is empty or the clock strictly exceeds the last spawn's time plus
the currently stored interval; at most one hazard is appended per frame; it
is appended at the back with spawnTime = the frame clock and the kind given
by the frame's 50/50 draw; and exactly on spawn the stored interval is
replaced by the frame's uniform draw, so it lies in [1, 3) whenever the draw
respects the distribution's support. -/
theorem c5_spawn_scheduler :
    ∀ (c : ℚ → ℚ) (st : GameState) (inp : FrameInput), st.gameover = false →
    (spawnCond (cullFront st.objects) st.interval inp.now = true ↔
      cullFront st.objects = [] ∨
      ∃ last, (cullFront st.objects).getLast? = some last ∧
        inp.now > last.spawnTime + st.interval) ∧
    ((step c st inp).objects.length =
      (cullFront st.objects).length +
        (if spawnCond (cullFront st.objects) st.interval inp.now then 1 else 0)) ∧
    (spawnCond (cullFront st.objects) st.interval inp.now = true →
      (step c st inp).objects =
        updateAll c inp.now (cullFront st.objects ++ [newHazard inp.kindDraw inp.now]) ∧
      (step c st inp).interval = inp.intervalDraw ∧
      ((step c st inp).objects).getLast? =
        some (updateHazard c inp.now (newHazard inp.kindDraw inp.now)) ∧
      (updateHazard c inp.now (newHazard inp.kindDraw inp.now)).spawnTime = inp.now) ∧
    (spawnCond (cullFront st.objects) st.interval inp.now = false →
      (step c st inp).objects = updateAll c inp.now (cullFront st.objects) ∧
      (step c st inp).interval = st.interval) ∧
    (spawnCond (cullFront st.objects) st.interval inp.now = true →
      1 ≤ inp.intervalDraw → inp.intervalDraw < 3 →
      1 ≤ (step c st inp).interval ∧ (step c st inp).interval < 3) := by
  intro c st inp hgo
  refine ⟨?_, ?_, ?_, ?_, ?_⟩
  · unfold spawnCond
    cases hL : (cullFront st.objects).getLast? with
    | none =>
        simp [List.getLast?_eq_none_iff.mp hL]
    | some last =>
        rw [decide_eq_true_iff]
        constructor
        · intro hgt
          exact Or.inr ⟨last, rfl, hgt⟩
        · rintro (hemp | ⟨l2, hsome, hgt⟩)
          · rw [hemp] at hL
            simp at hL
          · injection hsome with he
            rw [he]
            exact hgt
  · by_cases hcd : spawnCond (cullFront st.objects) st.interval inp.now = true
    · simp [step, stepRunning, updateAll, hgo, hcd]
    · rw [Bool.not_eq_true] at hcd
      simp [step, stepRunning, updateAll, hgo, hcd]
  · intro hcd
    refine ⟨?_, ?_, ?_, rfl⟩
    · simp [step, stepRunning, hgo, hcd]
    · simp [step, stepRunning, hgo, hcd]
    · simp [step, stepRunning, hgo, hcd, updateAll, List.getLast?_concat]
  · intro hcd
    constructor
    · simp [step, stepRunning, hgo, hcd]
    · simp [step, stepRunning, hgo, hcd]
  · intro hcd h1 h3
    have hi : (step c st inp).interval = inp.intervalDraw := by
      simp [step, stepRunning, hgo, hcd]
    rw [hi]
    exact ⟨h1, h3⟩

/-- Witness for C5: the first frame at clock 1 from the initial state (empty
registry) spawns exactly one pelican and stores the drawn interval. -/
theorem c5_spawn_scheduler_witness :
    (step cosZero (initState 0) ⟨false, false, 1, Kind.pelican, 2⟩).objects =
      updateAll cosZero 1 (cullFront (initState 0).objects ++ [newHazard Kind.pelican 1]) ∧
    (step cosZero (initState 0) ⟨false, false, 1, Kind.pelican, 2⟩).interval = 2 := by
  have h := (c5_spawn_scheduler cosZero (initState 0)
    ⟨false, false, 1, Kind.pelican, 2⟩ rfl).2.2.1 (by decide)
  exact ⟨h.1, h.2.1⟩

end Wave
